import Mathlib

/-!
Verification development for the `seimaster` relayer backend
(`src/backend/index.js`) and its account-factory contract
(`src/contracts/contracts/aa/AccountFactory.sol`).

The JavaScript source is embedded shallowly: network and chain effects are
passed in explicitly (a `Network` function for HTTP JSON-RPC fetches, a
`ChainView` for contract reads, an explicit code map for on-chain state),
JavaScript exceptions become `Except String` with errors identified by their
message text, and addresses, hashes and 32-byte words are `Nat`.
ABI encoding and decoding (performed in the source by the external `ethers`
library) is modelled at its documented contract: an encoded call records the
resolved function signature together with the type-checked argument list, and
encoding fails exactly when the argument list does not match the declared
parameter types, as `ethers` does on an arity mismatch.

Two facts about the source module are load-bearing and are reflected in these
definitions where they apply.  `src/backend/index.js` is an ES module whose
only ethers imports are the named bindings at lines 4-15 (`JsonRpcProvider`,
`Wallet`, `formatEther`, `parseEther`, `Contract`, `parseUnits`, `Interface`,
`ZeroAddress`, `toBeHex`, `getBytes`).  The identifiers `keccak256` and
`toUtf8Bytes` used at line 162, and the namespace `ethers` used at lines 419,
425, 469 and 473, are therefore unbound, and evaluating those expressions
raises a `ReferenceError` which the outer `catch` of each route serializes with
`String(e)` into a 500 response.
-/

set_option autoImplicit false

/-- Parsed JSON-RPC response body, as the backend reads it: the `result`
field (absent when `undefined`) and the value of `error.message` when both
`error` and its `message` are present (`j?.error?.message`). -/
structure JsonBody (V : Type) where
  result : Option V
  errMsg : Option String
  deriving DecidableEq

/-- Outcome of one `fetch` of a JSON-RPC endpoint: either the underlying
request threw (network failure, abort after the 8s guard), or a response
arrived with an HTTP status and a body that parsed as JSON (`some`) or
failed to parse (`none`, which line 36 tolerates as an empty object). -/
inductive FetchOutcome (V : Type) where
  | threw (msg : String)
  | responded (status : Nat) (body : Option (JsonBody V))
  deriving DecidableEq

/-- The ambient network: what one HTTP JSON-RPC fetch of
`(url, method, params)` yields. -/
def Network (V : Type) : Type := String → String → List V → FetchOutcome V

/-- JavaScript `m || d` for the optional string `m = j?.error?.message`:
the fallback is used when the message is absent or empty (falsy). -/
def jsOrStr (m : Option String) (d : String) : String :=
  match m with
  | some s => if s = "" then d else s
  | none => d

/-- Core of `rpcFetch` (`src/backend/index.js` lines 25-42) applied to the
outcome of its `fetch`: a thrown fetch propagates; otherwise the body is
parsed (parse failure yielding an empty object), a defined `result` is
returned, and anything else throws `j?.error?.message || "rpc error " + status`. -/
def rpcFetchCore {V : Type} (o : FetchOutcome V) : Except String V :=
  match o with
  | .threw m => .error m
  | .responded status body =>
    let j := body.getD ⟨none, none⟩
    match j.result with
    | some v => .ok v
    | none => .error (jsOrStr j.errMsg ("rpc error " ++ toString status))

/-- `rpcFetch(url, method, params)` (lines 25-42): issue one HTTP POST of the
JSON-RPC envelope to `url` and extract the result. -/
def rpcFetch {V : Type} (net : Network V) (url method : String) (params : List V) :
    Except String V :=
  rpcFetchCore (net url method params)

/-- The `READS` endpoint list (line 23):
`[process.env.READ_RPC_1, process.env.READ_RPC_2].filter(Boolean)` — unset
and empty-string entries are dropped, order is preserved. -/
def READS (r1 r2 : Option String) : List String :=
  (([r1, r2].filterMap id).filter (fun s => s ≠ ""))

/-- The loop of `rpc` (lines 44-54), also counting how many `rpcFetch`
attempts are performed: each url is tried in order, the first success
returns at once, a failure records `lastErr` and moves on, and an exhausted
list throws `lastErr || new Error("all RPCs failed")`. -/
def rpcAux {V : Type} (net : Network V) (method : String) (params : List V) :
    List String → Option String → Except String V × Nat
  | [], lastErr => (.error (lastErr.getD "all RPCs failed"), 0)
  | url :: rest, lastErr =>
    match rpcFetch net url method params with
    | .ok v => (.ok v, 1)
    | .error e =>
      let r := rpcAux net method params rest (some e)
      (r.1, r.2 + 1)

/-- `rpc(method, params)` (lines 44-54) over the configured endpoint list. -/
def rpc {V : Type} (net : Network V) (method : String) (params : List V)
    (urls : List String) : Except String V :=
  (rpcAux net method params urls none).1

/-- Number of `rpcFetch` attempts `rpc(method, params)` performs. -/
def rpcAttempts {V : Type} (net : Network V) (method : String) (params : List V)
    (urls : List String) : Nat :=
  (rpcAux net method params urls none).2

/-- All of `urls` fail under `net`: each attempt yields some error. -/
def allFail {V : Type} (net : Network V) (method : String) (params : List V)
    (urls : List String) : Prop :=
  ∀ x ∈ urls, ∃ e, rpcFetch net x method params = .error e

theorem rpcAux_ok_of_first_success {V : Type} (net : Network V) (method : String)
    (params : List V) (u : String) (post : List String) (v : V)
    (hu : rpcFetch net u method params = .ok v) :
    ∀ (pre : List String) (le : Option String), allFail net method params pre →
      rpcAux net method params (pre ++ u :: post) le = (.ok v, pre.length + 1) := by
  intro pre
  induction pre with
  | nil =>
    intro le _
    simp [rpcAux, hu]
  | cons x rest ih =>
    intro le hfail
    obtain ⟨e, he⟩ := hfail x (List.mem_cons_self x rest)
    have hrest : allFail net method params rest := by
      intro y hy
      exact hfail y (List.mem_cons_of_mem x hy)
    simp [List.cons_append, rpcAux, he, ih (some e) hrest]

theorem rpcAux_error_of_all_fail {V : Type} (net : Network V) (method : String)
    (params : List V) (u : String) (eu : String)
    (hu : rpcFetch net u method params = .error eu) :
    ∀ (pre : List String) (le : Option String), allFail net method params pre →
      rpcAux net method params (pre ++ [u]) le = (.error eu, pre.length + 1) := by
  intro pre
  induction pre with
  | nil =>
    intro le _
    simp [rpcAux, hu]
  | cons x rest ih =>
    intro le hfail
    obtain ⟨e', he⟩ := hfail x (List.mem_cons_self x rest)
    have hrest : allFail net method params rest := by
      intro y hy
      exact hfail y (List.mem_cons_of_mem x hy)
    simp [List.cons_append, rpcAux, he, ih (some e') hrest]

/-- C2: the multi-endpoint reader `rpc` attempts endpoints in configured
order; the first endpoint whose call succeeds determines the result, with
no later endpoint attempted (the attempt count is `pre.length + 1`
regardless of what follows); when exactly the last of the endpoints
succeeds the attempt count equals the list length and the result of that
endpoint is returned; and when every endpoint fails the error of the last
endpoint is raised. -/
theorem c2_multi_endpoint_reader {V : Type} (net : Network V) (method : String)
    (params : List V) (pre post : List String) (u : String)
    (hpre : allFail net method params pre) :
    (∀ v, rpcFetch net u method params = .ok v →
      rpc net method params (pre ++ u :: post) = .ok v ∧
      rpcAttempts net method params (pre ++ u :: post) = pre.length + 1) ∧
    (∀ e, rpcFetch net u method params = .error e → post = [] →
      rpc net method params (pre ++ u :: post) = .error e ∧
      rpcAttempts net method params (pre ++ u :: post) = pre.length + 1) := by
  constructor
  · intro v hv
    have h := rpcAux_ok_of_first_success net method params u post v hv pre none hpre
    constructor
    · simpa [rpc] using congrArg Prod.fst h
    · simpa [rpcAttempts] using congrArg Prod.snd h
  · intro e he hpost
    subst hpost
    have h := rpcAux_error_of_all_fail net method params u e he pre none hpre
    constructor
    · simpa [rpc] using congrArg Prod.fst h
    · simpa [rpcAttempts] using congrArg Prod.snd h

/-- Witness for C2 at a concrete network: of three endpoints the first
throws and the second succeeds with `7`, so `rpc` returns `7` after exactly
two attempts, never reaching the third. -/
theorem c2_multi_endpoint_reader_witness :
    rpc (fun url _ _ =>
        if url = "a" then .threw "boom" else .responded 200 (some ⟨some 7, none⟩))
      "eth_call" ([] : List Nat) ["a", "b", "c"] = .ok 7 ∧
    rpcAttempts (fun url _ _ =>
        if url = "a" then .threw "boom" else .responded 200 (some ⟨some 7, none⟩))
      "eth_call" ([] : List Nat) ["a", "b", "c"] = 2 :=
  (c2_multi_endpoint_reader
    (fun url _ _ =>
      if url = "a" then .threw "boom" else .responded 200 (some ⟨some 7, none⟩))
    "eth_call" [] ["a"] ["c"] "b"
    (by
      intro x hx
      have hxa : x = "a" := by simpa using hx
      subst hxa
      exact ⟨"boom", rfl⟩)).1 7 rfl

/-- C6: the JSON-RPC client returns the `result` field of the parsed body
whenever it is defined; otherwise it fails with the server-supplied error
message or, absent one, the HTTP status; and a body that fails to parse as
JSON is treated as an empty object and so produces the generic
`rpc error <status>` error. -/
theorem c6_rpc_client_result_extraction (V : Type) (url method : String)
    (params : List V) (status : Nat) (v : V) (em : Option String) :
    rpcFetch (fun _ _ _ => .responded status (some ⟨some v, em⟩)) url method params
      = .ok v ∧
    rpcFetch (fun _ _ _ => .responded status (some ⟨none, em⟩)) url method params
      = .error (jsOrStr em ("rpc error " ++ toString status)) ∧
    rpcFetch (fun _ _ _ => .responded status none) url method params
      = .error ("rpc error " ++ toString status) :=
  ⟨rfl, rfl, rfl⟩

/-- C10: with neither read RPC URL set the configured endpoint list is
empty, so `rpc` performs no fetch attempt at all and fails immediately with
the fixed error `all RPCs failed`, for every method and parameter list. -/
theorem c10_empty_endpoint_list (V : Type) (net : Network V) (method : String)
    (params : List V) :
    READS none none = [] ∧
    rpc net method params (READS none none) = .error "all RPCs failed" ∧
    rpcAttempts net method params (READS none none) = 0 :=
  ⟨rfl, rfl, rfl⟩

/-- ABI parameter and return types used by the factory and token
interfaces of the backend. -/
inductive AbiTy where
  | addrTy
  | uintTy
  | b32Ty
  | strTy
  deriving DecidableEq

/-- ABI argument and return values: addresses, 256-bit integers, 32-byte
words and strings, each carried as its semantic value. -/
inductive AbiVal where
  | addr (a : Nat)
  | uint (n : Nat)
  | b32 (w : Nat)
  | str (s : String)
  deriving DecidableEq

/-- Whether a value inhabits a declared ABI type. -/
def AbiVal.hasTy : AbiVal → AbiTy → Bool
  | .addr _, .addrTy => true
  | .uint _, .uintTy => true
  | .b32 _, .b32Ty => true
  | .str _, .strTy => true
  | _, _ => false

/-- Componentwise type check of an argument list against a parameter list;
false on any arity or type mismatch, as `ethers` encoding is. -/
def tyCheck : List AbiTy → List AbiVal → Bool
  | [], [] => true
  | t :: ts, v :: vs => v.hasTy t && tyCheck ts vs
  | _, _ => false

/-- A minimal ABI function description: name, parameter types, return types. -/
structure FnSig where
  name : String
  inputs : List AbiTy
  outputs : List AbiTy

/-- Canonical text of an ABI type. -/
def AbiTy.text : AbiTy → String
  | .addrTy => "address"
  | .uintTy => "uint256"
  | .b32Ty => "bytes32"
  | .strTy => "string"

/-- Canonical signature key of a function, e.g. `getAddress(string)`. -/
def sigKey (f : FnSig) : String :=
  f.name ++ "(" ++ String.intercalate "," (f.inputs.map AbiTy.text) ++ ")"

/-- An ABI-encoded function call: the resolved signature together with the
argument list (the model of the calldata hex string `ethers` produces). -/
structure EncodedCall where
  sel : String
  args : List AbiVal
  deriving DecidableEq

/-- Byte strings moved between the backend and the chain: opaque raw bytes
(`raw []` is the empty `0x`), an ABI-encoded call, or ABI-encoded return
values. -/
inductive HexData where
  | raw (ws : List Nat)
  | call (c : EncodedCall)
  | ret (vals : List AbiVal)
  deriving DecidableEq

/-- `Interface.encodeFunctionData` of the external `ethers` library at its
documented contract: deterministic, and failing exactly when the argument
list does not type-check against the declared inputs (in particular on any
arity mismatch, which `ethers` reports as a length mismatch error). -/
def encodeFunctionData (f : FnSig) (args : List AbiVal) : Except String EncodedCall :=
  if tyCheck f.inputs args then .ok ⟨sigKey f, args⟩
  else .error "types/values length mismatch"

/-- `Interface.decodeFunctionResult`: return data decodes exactly when it is
encoded return values matching the declared output types. -/
def decodeFunctionResult (f : FnSig) (h : HexData) : Except String (List AbiVal) :=
  match h with
  | .ret vs => if tyCheck f.outputs vs then .ok vs else .error "could not decode result data"
  | _ => .error "could not decode result data"

/-- Take entry `[0]` of a decoded result as an address, yielding `none` when
decoding throws or the entry is absent (the `try/catch` of the backend around
`decodeFunctionResult(...)[0]`). -/
def decodeAddr0 (f : FnSig) (h : HexData) : Option Nat :=
  match decodeFunctionResult f h with
  | .ok (AbiVal.addr a :: _) => some a
  | _ => none

/-- `getAddress(string)` of `AccountFactory` (artifact ABI). -/
def getAddressStringFn : FnSig := ⟨"getAddress", [AbiTy.strTy], [AbiTy.addrTy]⟩

/-- `createAccount(string,address)` of `AccountFactory` (artifact ABI): two
parameters, which is what makes the one-argument encoding at line 414 of
`src/backend/index.js` fail. -/
def createAccountStringFn : FnSig :=
  ⟨"createAccount", [AbiTy.strTy, AbiTy.addrTy], [AbiTy.addrTy]⟩

/-- `implementation()` of `AccountFactory` (artifact ABI). -/
def implementationFn : FnSig := ⟨"implementation", [], [AbiTy.addrTy]⟩

/-- What the read stack of the backend exposes of the chain: `eth_call` of an
encoded call against a target address (reverts and transport failures both
surfacing as errors), and `getCode` returning the hex string of the code at
an address (`0x` when empty). -/
structure ChainView where
  ethCall : Nat → EncodedCall → Except String HexData
  getCode : Nat → String

/-- `safeCall` of the `/api/aa/address` route (lines 139-145): an `eth_call`
whose failures are converted to `null`. -/
def safeCall (chain : ChainView) (dest : Nat) (data : EncodedCall) : Option HexData :=
  (chain.ethCall dest data).toOption

/-- The identity of the factory contract: its implementation address and its
own deployed address. -/
structure FactoryState where
  impl : Nat
  self : Nat

/-- `AccountFactory.getAddress(string)`
(`src/contracts/contracts/aa/AccountFactory.sol` lines 22-25): the salt is
`keccak256(abi.encodePacked(userId))` and the prediction is
`Clones.predictDeterministicAddress(implementation, salt, address(this))`.
The hash `k` and the CREATE2 prediction `p` are the uninterpreted
cryptographic primitives. -/
def factoryGetAddress (k : String → Nat) (p : Nat → Nat → Nat → Nat)
    (st : FactoryState) (userId : String) : Nat :=
  p st.impl (k userId) st.self

/-- Nonempty runtime code a freshly deployed clone ends up with. -/
def cloneCode : String := "0x363d3d373d3d3d363d73"

/-- `AccountFactory.createAccount(string,address)` (AccountFactory.sol lines
28-37): predict the clone address; when it has no code, deploy the clone
there (its code becoming nonempty) and initialize the owner (storage, not
modelled); always return the predicted account address. -/
def createAccountSol (k : String → Nat) (p : Nat → Nat → Nat → Nat)
    (st : FactoryState) (code : Nat → String) (userId : String) (owner : Nat) :
    (Nat → String) × Nat :=
  let account := factoryGetAddress k p st userId
  if code account = "0x" then
    (fun a => if a = account then cloneCode else code a, account)
  else
    (code, account)

/-- A chain whose factory contract at `st.self` answers `getAddress(string)`
and `implementation()` by executing the embedded `AccountFactory`, and whose
code is given by `code`; every other call reverts. -/
def mkChain (k : String → Nat) (p : Nat → Nat → Nat → Nat) (st : FactoryState)
    (code : Nat → String) : ChainView :=
  ⟨fun dest data =>
    if dest = st.self then
      if data.sel = sigKey getAddressStringFn then
        match data.args with
        | [AbiVal.str u] => .ok (HexData.ret [AbiVal.addr (factoryGetAddress k p st u)])
        | _ => .error "execution reverted"
      else if data.sel = sigKey implementationFn then
        match data.args with
        | [] => .ok (HexData.ret [AbiVal.addr st.impl])
        | _ => .error "execution reverted"
      else .error "execution reverted"
    else .error "execution reverted",
   code⟩

/-- Responses of `GET /api/aa/address` (lines 126-198): a 400 for missing
input or configuration, a 500 carrying `String(e)` of a thrown error, or
the success object. -/
inductive AddrResp where
  | badRequest (msg : String)
  | serverErr (msg : String)
  | ok (userId : String) (factory : Nat) (implementation : Option Nat) (smartAccount : Nat)
  deriving DecidableEq

/-- Message of the `ReferenceError` raised at line 162, where the fallback
evaluates `keccak256(toUtf8Bytes(userId))` although neither identifier is
imported by the module. -/
def refErrKeccak : String := "ReferenceError: keccak256 is not defined"

/-- Message of the `ReferenceError` raised at lines 419, 425, 469 and 473,
which reference the namespace `ethers` although the module only imports
named bindings from the ethers package. -/
def refErrEthers : String := "ReferenceError: ethers is not defined"

/-- `GET /api/aa/address` (lines 126-198).  Step 1 encodes
`getAddress(string)` and reads it through `safeCall`, decoding entry `[0]`
with failures as `null`.  When step 1 yields no usable address, the source
enters the fallback at line 162, whose first expression
`keccak256(toUtf8Bytes(userId))` evaluates the unbound name `keccak256`;
the resulting `ReferenceError` propagates to the outer `catch` and becomes
a 500 response, so neither the `getAddress(bytes32)` variant nor the
"Factory reverted for both signatures" response at lines 182-187 is ever
reached (the latter is dead code: it requires a usable address from step 1,
in which case the route succeeds).  Otherwise the optional
`implementation()` read is attempted non-fatally and the success object is
returned. -/
def apiAaAddress (chain : ChainView) (factoryEnv : Option Nat)
    (userQ : Option String) : AddrResp :=
  let userId := userQ.getD ""
  if userId = "" then .badRequest "missing ?user=<string>"
  else
    match factoryEnv with
    | none => .badRequest "AA_FACTORY not set"
    | some factoryAddr =>
      match encodeFunctionData getAddressStringFn [AbiVal.str userId] with
      | .error e => .serverErr e
      | .ok data =>
        let out := safeCall chain factoryAddr data
        match out.bind (decodeAddr0 getAddressStringFn) with
        | none => .serverErr refErrKeccak
        | some smartAccount =>
          let implementation :=
            match encodeFunctionData implementationFn [] with
            | .ok d => (chain.ethCall factoryAddr d).toOption.bind (decodeAddr0 implementationFn)
            | .error _ => none
          .ok userId factoryAddr implementation smartAccount

/-- C4 (code evaluation): with the factory reverting on the primary
`getAddress(string)` read, the route does not derive a salt or attempt the
`getAddress(bytes32)` variant; it fails with the `ReferenceError` of the
unbound `keccak256`, so the claimed account-resolution error naming the
factory and the attempted variants is never produced. -/
theorem c4_fallback_raises_reference_error :
    apiAaAddress ⟨fun _ _ => .error "execution reverted", fun _ => "0x"⟩
      (some 5) (some "alice") = .serverErr refErrKeccak := rfl

/-- Evaluation of `apiAaAddress` on `mkChain`: for a nonempty `userId` and
the factory configured at its deployed address, the route succeeds with the
smart account predicted by the embedded factory, for every code map. -/
theorem apiAaAddress_mkChain (k : String → Nat) (p : Nat → Nat → Nat → Nat)
    (st : FactoryState) (code : Nat → String) (u : String) (hu : u ≠ "") :
    apiAaAddress (mkChain k p st code) (some st.self) (some u)
      = .ok u st.self (some st.impl) (factoryGetAddress k p st u) := by
  have hne : sigKey implementationFn ≠ sigKey getAddressStringFn := by decide
  have h2 : encodeFunctionData getAddressStringFn [AbiVal.str u]
      = .ok ⟨sigKey getAddressStringFn, [AbiVal.str u]⟩ := rfl
  have h3 : encodeFunctionData implementationFn []
      = .ok ⟨sigKey implementationFn, []⟩ := rfl
  have h4 : decodeAddr0 getAddressStringFn
      (HexData.ret [AbiVal.addr (factoryGetAddress k p st u)])
      = some (factoryGetAddress k p st u) := rfl
  have h5 : decodeAddr0 implementationFn (HexData.ret [AbiVal.addr st.impl])
      = some st.impl := rfl
  simp [apiAaAddress, mkChain, safeCall, hu, hne, h2, h3, h4, h5,
    Except.toOption, Option.bind]

/-- C9: the account resolver is deterministic and independent of deployment
state — on any two chains that share the factory identity but carry
arbitrary, possibly different code maps, resolving the same `userId` yields
the same sender, namely the pure function
`predict(implementation, keccak(userId), factory)` of the embedded factory
contract. -/
theorem c9_resolver_deterministic (k : String → Nat) (p : Nat → Nat → Nat → Nat)
    (st : FactoryState) (code1 code2 : Nat → String) (u : String) (hu : u ≠ "") :
    apiAaAddress (mkChain k p st code1) (some st.self) (some u)
      = .ok u st.self (some st.impl) (factoryGetAddress k p st u) ∧
    apiAaAddress (mkChain k p st code2) (some st.self) (some u)
      = apiAaAddress (mkChain k p st code1) (some st.self) (some u) :=
  ⟨apiAaAddress_mkChain k p st code1 u hu,
   (apiAaAddress_mkChain k p st code2 u hu).trans
     (apiAaAddress_mkChain k p st code1 u hu).symm⟩

/-- Witness for C9 at concrete inputs: one chain with no code anywhere, one
with code everywhere, same factory identity; both resolve `alice` to the
same predicted address. -/
theorem c9_resolver_deterministic_witness :
    apiAaAddress (mkChain (fun _ => 1) (fun _ _ _ => 2) ⟨3, 4⟩ (fun _ => "0x"))
      (some 4) (some "alice") = .ok "alice" 4 (some 3) 2 ∧
    apiAaAddress (mkChain (fun _ => 1) (fun _ _ _ => 2) ⟨3, 4⟩ (fun _ => cloneCode))
      (some 4) (some "alice")
      = apiAaAddress (mkChain (fun _ => 1) (fun _ _ _ => 2) ⟨3, 4⟩ (fun _ => "0x"))
          (some 4) (some "alice") :=
  c9_resolver_deterministic (fun _ => 1) (fun _ _ _ => 2) ⟨3, 4⟩
    (fun _ => "0x") (fun _ => cloneCode) "alice" (by decide)

/-- Result of `getSenderAndInit` (lines 404-444): resolved sender, deployed
flag, and the `factoryData` initialization payload (`raw []` for `0x`). -/
structure SenderInit where
  sender : Nat
  deployed : Bool
  factoryData : HexData
  deriving DecidableEq

/-- The `try` branch of `getSenderAndInit` (lines 408-416): read
`getAddress(string)`, fetch the code at the resolved sender, treat nonempty
non-`0x` code as deployed, and for an undeployed sender encode
`createAccount` with the single argument `[userId]` — an arity mismatch
against the artifact ABI function `createAccount(string,address)`, so that
encoding throws. -/
def getSenderAndInitTry (chain : ChainView) (factoryAddr : Nat) (userId : String) :
    Except String SenderInit :=
  match encodeFunctionData getAddressStringFn [AbiVal.str userId] with
  | .error e => .error e
  | .ok data =>
    match chain.ethCall factoryAddr data with
    | .error e => .error e
    | .ok out =>
      match decodeAddr0 getAddressStringFn out with
      | none => .error "could not decode result data"
      | some sender =>
        let code := chain.getCode sender
        if code ≠ "" ∧ code ≠ "0x" then .ok ⟨sender, true, HexData.raw []⟩
        else
          match encodeFunctionData createAccountStringFn [AbiVal.str userId] with
          | .ok c => .ok ⟨sender, false, HexData.call c⟩
          | .error e => .error e

/-- `getSenderAndInit` (lines 404-444).  Any throw in the `try` branch lands
in the `catch` block, whose first statement `ethers.id(userId)` (line 419)
evaluates the unbound namespace `ethers`; the resulting `ReferenceError`
replaces the original error, so the `bytes32` fallback path of lines
419-442 can never run. -/
def getSenderAndInit (chain : ChainView) (factoryAddr : Nat) (userId : String) :
    Except String SenderInit :=
  match getSenderAndInitTry chain factoryAddr userId with
  | .ok r => .ok r
  | .error _ => .error refErrEthers

/-- A bundler JSON-RPC error payload (`json.error`). -/
structure BundlerErr where
  message : String
  deriving DecidableEq

/-- A bundler JSON-RPC response: `error` and `result` fields. -/
structure BundlerResp where
  error : Option BundlerErr
  result : Option String
  deriving DecidableEq

/-- The UserOperation object of lines 476-493: placeholder nonce, gas, fee
and signature fields, with `factory`/`factoryData` attached only for an
undeployed sender. -/
structure UserOp where
  sender : Nat
  nonce : String
  callData : HexData
  callGasLimit : String
  verificationGasLimit : String
  preVerificationGas : String
  maxFeePerGas : String
  maxPriorityFeePerGas : String
  paymaster : Nat
  paymasterData : HexData
  signature : String
  factory : Option Nat
  factoryData : Option HexData
  deriving DecidableEq

/-- Environment required by `GET /api/aa/gasless-mint/send` (lines 456-463). -/
structure SendEnv where
  factory : Option Nat
  token : Option Nat
  paymaster : Option Nat
  bundlerUrl : Option String
  entryPoint : Option Nat

/-- Responses of `GET /api/aa/gasless-mint/send` (lines 447-521). -/
inductive SendResp where
  | badRequest (msg : String)
  | bundlerRejected (details : BundlerErr) (sentUserOp : UserOp)
  | okSent (userOpHash : Option String) (sender : Nat) (receiver : String) (amount : String)
  | serverErr (msg : String)
  deriving DecidableEq

/-- JavaScript `receiver.startsWith("0x")` on its character list (a
computable model of the string prefix test of line 454). -/
def startsWith0x (s : String) : Bool := s.toList.take 2 = ['0', 'x']

/-- `GET /api/aa/gasless-mint/send` (lines 447-521).  After the query and
environment checks and `getSenderAndInit`, line 469 constructs
`new ethers.Interface(tokenAbi)`; `ethers` is unbound, so the route throws
a `ReferenceError` before encoding the mint call, before assembling the
UserOperation of lines 476-493, and before contacting the bundler — the
`bundler` response argument is never consumed, and the
`bundlerRejected`/`okSent` responses of lines 509-517 are unreachable. -/
def apiAaGaslessMintSend (chain : ChainView) (env : SendEnv) (bundler : BundlerResp)
    (userQ toQ amountQ : Option String) : SendResp :=
  let user := userQ.getD ""
  let receiver := toQ.getD ""
  if user = "" then .badRequest "missing ?user="
  else if ¬ startsWith0x receiver then .badRequest "bad ?to="
  else
    match env.factory, env.token, env.paymaster, env.bundlerUrl, env.entryPoint with
    | some factoryAddr, some _, some _, some _, some _ =>
      (match getSenderAndInit chain factoryAddr user with
      | .error e => .serverErr e
      | .ok _ => .serverErr refErrEthers)
    | _, _, _, _, _ => .badRequest "missing env vars"

/-- C1 (code evaluation): the gasless-mint builder never assembles a
UserOperation.  For an undeployed sender `getSenderAndInit` already throws
(the one-argument `createAccount` encoding of line 414 is an arity mismatch
and the `catch` at line 419 raises the `ReferenceError` of the unbound
`ethers`), and for a deployed sender the route throws at line 469 for the
same reason; both runs answer 500 instead of an operation with the claimed
`factory`/`factoryData` handling. -/
theorem c1_no_userop_is_assembled :
    getSenderAndInit (mkChain (fun _ => 0) (fun _ _ _ => 7) ⟨3, 5⟩ (fun _ => "0x"))
        5 "alice" = .error refErrEthers ∧
    apiAaGaslessMintSend (mkChain (fun _ => 0) (fun _ _ _ => 7) ⟨3, 5⟩ (fun _ => "0x"))
        ⟨some 5, some 11, some 13, some "bundler", some 17⟩ ⟨none, none⟩
        (some "alice") (some "0xabc") (some "10") = .serverErr refErrEthers ∧
    apiAaGaslessMintSend (mkChain (fun _ => 0) (fun _ _ _ => 7) ⟨3, 5⟩ (fun _ => cloneCode))
        ⟨some 5, some 11, some 13, some "bundler", some 17⟩ ⟨none, none⟩
        (some "alice") (some "0xabc") (some "10") = .serverErr refErrEthers :=
  ⟨rfl, rfl, rfl⟩

/-- C5 (code evaluation): with a bundler stub answering
`error.message = "insufficient paymaster balance"` and a deployed sender,
the route still answers 500 with the `ReferenceError` of line 469 — the
bundler is never contacted, its error payload is never surfaced, and the
claimed 400 response carrying the payload and the submitted operation is
unreachable. -/
theorem c5_bundler_rejection_unreachable :
    apiAaGaslessMintSend (mkChain (fun _ => 0) (fun _ _ _ => 7) ⟨3, 5⟩ (fun _ => cloneCode))
        ⟨some 5, some 11, some 13, some "bundler", some 17⟩
        ⟨some ⟨"insufficient paymaster balance"⟩, none⟩
        (some "bob") (some "0xdef") (some "10") = .serverErr refErrEthers := rfl

/-- C7 (code evaluation): for an undeployed sender with `amount=10` the
route fails before the mint call is encoded (line 469 raises the
`ReferenceError` of the unbound `ethers`, and `getSenderAndInit` has
already thrown on the one-argument `createAccount` encoding), so no
`callData` to round-trip through `execute`/`mintTo` is ever produced. -/
theorem c7_calldata_never_produced :
    apiAaGaslessMintSend (mkChain (fun _ => 0) (fun _ _ _ => 21) ⟨3, 5⟩ (fun _ => "0x"))
        ⟨some 5, some 11, some 13, some "bundler", some 17⟩ ⟨none, some "0xh"⟩
        (some "carol") (some "0xfeed") (some "10") = .serverErr refErrEthers := rfl

/-- C8 (code evaluation): the builder never populates the placeholder
nonce, gas, fee and signature fields of lines 476-488 because the route
throws at line 469 before the object literal is evaluated, for a deployed
and an undeployed sender alike. -/
theorem c8_placeholder_fields_never_populated :
    apiAaGaslessMintSend (mkChain (fun _ => 0) (fun _ _ _ => 9) ⟨2, 4⟩ (fun _ => cloneCode))
        ⟨some 4, some 11, some 13, some "bundler", some 17⟩ ⟨none, none⟩
        (some "dave") (some "0xbeef") (some "5") = .serverErr refErrEthers ∧
    apiAaGaslessMintSend (mkChain (fun _ => 0) (fun _ _ _ => 9) ⟨2, 4⟩ (fun _ => "0x"))
        ⟨some 4, some 11, some 13, some "bundler", some 17⟩ ⟨none, none⟩
        (some "dave") (some "0xbeef") (some "5") = .serverErr refErrEthers :=
  ⟨rfl, rfl⟩

/-- Responses of `POST /api/aa/deploy` (lines 275-311).  `txHash` models
`tx.hash`: `some` whenever a transaction was submitted. -/
inductive DeployResp where
  | badRequest (msg : String)
  | okDeploy (userId : String) (factory : Nat) (predicted : Nat) (owner : Nat)
      (txHash : Option Nat) (deployed : Bool)
  deriving DecidableEq

/-- One run of `POST /api/aa/deploy`: the response, the resulting on-chain
code map, and the `createAccount(userId, owner)` transactions submitted. -/
structure DeployOut where
  resp : DeployResp
  code : Nat → String
  txs : List (String × Nat)

/-- `POST /api/aa/deploy` (lines 275-311): resolve the predicted address
with `factory["getAddress(string)"]`, then ALWAYS submit a
`createAccount(string,address)` transaction — there is no deployed check
before line 293 — wait for it, and re-read the code to report `deployed`.
The factory contract itself (executed here as `createAccountSol`) skips the
clone when code is already present, but the route still submits the
transaction and still returns its hash. -/
def apiAaDeploy (k : String → Nat) (p : Nat → Nat → Nat → Nat)
    (envFactory : Option FactoryState) (relayerAddr : Nat) (code : Nat → String)
    (userQ : Option String) (ownerQ : Option Nat) : DeployOut :=
  let userId := userQ.getD ""
  if userId = "" then ⟨.badRequest "missing ?user=<string>", code, []⟩
  else
    match envFactory with
    | none => ⟨.badRequest "AA_FACTORY not set", code, []⟩
    | some st =>
      let owner := ownerQ.getD relayerAddr
      let predicted := factoryGetAddress k p st userId
      let r := createAccountSol k p st code userId owner
      let c := r.1 predicted
      ⟨.okDeploy userId st.self predicted owner (some 0) (c ≠ "" ∧ c ≠ "0x"),
       r.1, [(userId, owner)]⟩

/-- Responses of `GET /api/aa/create` (lines 344-373). -/
inductive CreateResp where
  | badRequest (msg : String)
  | already (user : String) (smartAccount : Nat)
  | created (user : String) (smartAccount : Nat) (deployed : Bool) (txHash : Nat)
  deriving DecidableEq

/-- One run of `GET /api/aa/create`: response, resulting code map, and
submitted `createAccount` transactions. -/
structure CreateOut where
  resp : CreateResp
  code : Nat → String
  txs : List (String × Nat)

/-- `GET /api/aa/create` (lines 344-373): resolve the sender, and when it
already has code answer `alreadyDeployed: true` WITHOUT submitting a
transaction; otherwise submit `createAccount(user, relayer)`, wait, and
report the re-read deployed flag with the transaction hash. -/
def apiAaCreate (k : String → Nat) (p : Nat → Nat → Nat → Nat)
    (envFactory : Option FactoryState) (relayerAddr : Nat) (code : Nat → String)
    (userQ : Option String) : CreateOut :=
  let user := userQ.getD ""
  if user = "" then ⟨.badRequest "missing ?user=", code, []⟩
  else
    match envFactory with
    | none => ⟨.badRequest "AA_FACTORY not set", code, []⟩
    | some st =>
      let sender := factoryGetAddress k p st user
      let c := code sender
      if c ≠ "" ∧ c ≠ "0x" then ⟨.already user sender, code, []⟩
      else
        let r := createAccountSol k p st code user relayerAddr
        let ca := r.1 sender
        ⟨.created user sender (ca ≠ "" ∧ ca ≠ "0x") 0, r.1, [(user, relayerAddr)]⟩

/-- C3 counterexample: for an already deployed account (`alice` resolves to
address 7, which carries code), `POST /api/aa/deploy` still submits a
`createAccount` transaction and still returns a transaction hash,
contradicting the claim that no transaction is submitted and no `txHash`
is returned when the account is deployed. -/
theorem c3_deploy_always_submits :
    (fun a => if a = 7 then cloneCode else "0x")
        (factoryGetAddress (fun _ => 0) (fun _ _ _ => 7) ⟨3, 5⟩ "alice") = cloneCode ∧
    (apiAaDeploy (fun _ => 0) (fun _ _ _ => 7) (some ⟨3, 5⟩) 9
        (fun a => if a = 7 then cloneCode else "0x") (some "alice") none).txs
      = [("alice", 9)] ∧
    (apiAaDeploy (fun _ => 0) (fun _ _ _ => 7) (some ⟨3, 5⟩) 9
        (fun a => if a = 7 then cloneCode else "0x") (some "alice") none).resp
      = .okDeploy "alice" 5 7 9 (some 0) true := by
  refine ⟨rfl, rfl, ?_⟩
  simp [apiAaDeploy, createAccountSol, factoryGetAddress, cloneCode]

/-- C3 (amended): idempotence holds at `GET /api/aa/create`, not at
`POST /api/aa/deploy`.  When the resolved account already has code, the
create route submits no transaction, answers `alreadyDeployed` and returns
no transaction hash; calling it twice reports the account deployed both
times and the second call issues no transaction.  The hypothesis `hc` says
`getCode` does not answer the empty string (a real node answers at least
`0x`). -/
theorem c3_create_idempotent (k : String → Nat) (p : Nat → Nat → Nat → Nat)
    (st : FactoryState) (relayerAddr : Nat) (code : Nat → String) (u : String)
    (hu : u ≠ "") (hc : code (factoryGetAddress k p st u) ≠ "") :
    (code (factoryGetAddress k p st u) ≠ "0x" →
      apiAaCreate k p (some st) relayerAddr code (some u)
        = ⟨.already u (factoryGetAddress k p st u), code, []⟩) ∧
    ((apiAaCreate k p (some st) relayerAddr code (some u)).resp
        = .already u (factoryGetAddress k p st u) ∨
     (apiAaCreate k p (some st) relayerAddr code (some u)).resp
        = .created u (factoryGetAddress k p st u) true 0) ∧
    (apiAaCreate k p (some st) relayerAddr
        (apiAaCreate k p (some st) relayerAddr code (some u)).code (some u)).txs = [] ∧
    (apiAaCreate k p (some st) relayerAddr
        (apiAaCreate k p (some st) relayerAddr code (some u)).code (some u)).resp
      = .already u (factoryGetAddress k p st u) := by
  by_cases hdep : code (factoryGetAddress k p st u) = "0x"
  · have hclone : cloneCode ≠ "" ∧ cloneCode ≠ "0x" := by decide
    have e1 : apiAaCreate k p (some st) relayerAddr code (some u)
        = ⟨.created u (factoryGetAddress k p st u) true 0,
           fun a => if a = factoryGetAddress k p st u then cloneCode else code a,
           [(u, relayerAddr)]⟩ := by
      simp [apiAaCreate, createAccountSol, hu, hdep, hclone]
    have e3 : apiAaCreate k p (some st) relayerAddr
        (fun a => if a = factoryGetAddress k p st u then cloneCode else code a) (some u)
        = ⟨.already u (factoryGetAddress k p st u),
           fun a => if a = factoryGetAddress k p st u then cloneCode else code a, []⟩ := by
      simp [apiAaCreate, hu, hclone]
    refine ⟨fun h => absurd hdep h, ?_, ?_, ?_⟩
    · right
      rw [e1]
    · rw [e1]
      simpa using congrArg CreateOut.txs e3
    · rw [e1]
      simpa using congrArg CreateOut.resp e3
  · have hcond : code (factoryGetAddress k p st u) ≠ "" ∧
        code (factoryGetAddress k p st u) ≠ "0x" := ⟨hc, hdep⟩
    have e1 : apiAaCreate k p (some st) relayerAddr code (some u)
        = ⟨.already u (factoryGetAddress k p st u), code, []⟩ := by
      simp [apiAaCreate, hu, hcond]
    refine ⟨fun _ => e1, ?_, ?_, ?_⟩
    · left
      rw [e1]
    · rw [e1]
      simpa using congrArg CreateOut.txs e1
    · rw [e1]
      simpa using congrArg CreateOut.resp e1

/-- Witness for C3 at a concrete undeployed account: calling
`GET /api/aa/create` twice for `alice`, the second call submits no
transaction. -/
theorem c3_create_idempotent_witness :
    (apiAaCreate (fun _ => 0) (fun _ _ _ => 7) (some ⟨3, 5⟩) 9
        (apiAaCreate (fun _ => 0) (fun _ _ _ => 7) (some ⟨3, 5⟩) 9
          (fun _ => "0x") (some "alice")).code
        (some "alice")).txs = [] :=
  (c3_create_idempotent (fun _ => 0) (fun _ _ _ => 7) ⟨3, 5⟩ 9 (fun _ => "0x") "alice"
    (by decide) (by decide)).2.2.1
